import Mathlib

/-!
Verification development for the UniLLM gateway.

This file gives a shallow embedding of the billing, rate-limiting,
registry and adapter-retry logic of the repository and proves the
behavioural claims about them.  Money amounts (credits, costs, billing
amounts) are modelled exactly as rationals; the Python code computes
them with float/Decimal arithmetic whose rounding is not at issue in
any of the claims.  Requests are modelled as executing sequentially,
one at a time, as the claims state.
-/

namespace UniLLM

/-! ### Cost model (src/api_gateway/database.py, PROVIDER_COSTS and calculate_cost) -/

/-- The PROVIDER_COSTS table of database.py: per-provider, per-model
base rate in dollars per 1K tokens. -/
def PROVIDER_COSTS : List (String × List (String × ℚ)) :=
  [ ("openai",
      [ ("gpt-3.5-turbo", 2/1000)
      , ("gpt-4", 3/100)
      , ("gpt-4-turbo", 3/100) ])
  , ("anthropic",
      [ ("claude-3-sonnet", 15/1000)
      , ("claude-3-haiku", 25/10000)
      , ("claude-3-opus", 75/1000) ])
  , ("gemini",
      [ ("gemini-pro", 1/1000)
      , ("gemini-pro-vision", 1/1000) ])
  , ("mistral",
      [ ("mistral-small", 7/1000)
      , ("mistral-medium", 14/1000)
      , ("mistral-large", 56/1000) ])
  , ("cohere",
      [ ("command", 15/1000)
      , ("command-light", 3/1000) ]) ]

/-- Dictionary lookup PROVIDER_COSTS.get(provider, {}).get(model, 0.01)
performed by calculate_cost. -/
def tableRate (provider model : String) : ℚ :=
  (List.lookup model ((List.lookup provider PROVIDER_COSTS).getD [])).getD (1/100)

/-- calculate_cost of database.py: base rate looked up in the table
(default 0.01), a 20 percent markup, then (tokens / 1000) * cost_per_1k. -/
def calculate_cost (provider model : String) (tokens : ℕ) : ℚ :=
  let base_cost := tableRate provider model
  let cost_per_1k := base_cost * (12/10)
  ((tokens : ℚ) / 1000) * cost_per_1k

/-- The cost formula as the specification phrases it:
(estimated_tokens / 1000) times the rate taken straight from the cost
table, with no markup.  Used to compare the spec wording with
calculate_cost. -/
def specClaimCost (provider model : String) (tokens : ℕ) : ℚ :=
  ((tokens : ℚ) / 1000) * tableRate provider model

/-! ### Token estimation (src/api_gateway/main_phase2.py, chat_completion lines 436-438) -/

/-- Token estimate of the chat endpoint: sum of the character counts of
all message contents, integer-divided by 4, with a floor of 1. -/
def estimated_tokens (messages : List String) : ℕ :=
  let total_chars := (messages.map String.length).sum
  max (total_chars / 4) 1

/-- Token count as the specification phrases it: total prompt
characters divided by 4, with no floor. -/
def specClaimTokens (messages : List String) : ℕ :=
  ((messages.map String.length).sum) / 4

/-! ### Gateway state and operations (src/api_gateway/main_phase2.py, database.py) -/

/-- One row of the usage_logs table, with the fields the claims are
about. -/
structure UsageEntry where
  model : String
  provider : String
  tokens_used : ℕ
  cost : ℚ
  success : Bool
  error_message : Option String
deriving Repr, DecidableEq

/-- The part of the database owned by a single user: the credit
balance, the billing_history amounts and the usage_logs rows, in
chronological order. -/
structure GatewayState where
  credits : ℚ
  billing : List ℚ
  usage : List UsageEntry
deriving Repr, DecidableEq

/-- DEFAULT_CREDITS of config.py: the environment-supplied value,
capped at 1.0 (the shipped default of the environment variable is
0.10). -/
def DEFAULT_CREDITS (env : ℚ) : ℚ :=
  if 1 < env then 1 else env

/-- register_user of main_phase2.py, as it affects the billing state:
a fresh user starts with DEFAULT_CREDITS credits, an empty billing
history and an empty usage log. -/
def register_user (env : ℚ) : GatewayState :=
  { credits := DEFAULT_CREDITS env, billing := [], usage := [] }

/-- Outcome of the llm_client.chat call made by the chat endpoint:
success (carrying the resolved provider), a ModelNotFoundError, or any
other exception. -/
inductive LLMResult where
  | ok (provider : String)
  | modelNotFound (message : String)
  | otherError (message : String)
deriving Repr, DecidableEq

/-- Body of a successful ChatResponse as returned by the endpoint. -/
structure ChatResponseBody where
  tokens : ℕ
  provider : String
  cost : ℚ
  remaining_credits : ℚ
deriving Repr, DecidableEq

/-- Result of a chat request: a successful body or an HTTP error
status. -/
inductive ChatResult where
  | ok (body : ChatResponseBody)
  | httpError (statusCode : ℕ)
deriving Repr, DecidableEq

/-- Tokens reported to the caller, when the request succeeded. -/
def ChatResult.tokensReported : ChatResult → Option ℕ
  | .ok body => some body.tokens
  | .httpError _ => none

/-- Cost reported to the caller, when the request succeeded. -/
def ChatResult.costReported : ChatResult → Option ℚ
  | .ok body => some body.cost
  | .httpError _ => none

/-- The chat_completion endpoint of main_phase2.py (lines 412-502),
after authentication: on success it estimates tokens, prices them with
calculate_cost, debits the user and appends a successful usage row; on
ModelNotFoundError or any other exception it appends a failed usage
row with zero tokens and zero cost, leaves the credits alone, and
returns 400 resp. 500. -/
def chat_completion (s : GatewayState) (model : String) (messages : List String)
    (llm : LLMResult) : GatewayState × ChatResult :=
  match llm with
  | .ok provider =>
      let estTokens := estimated_tokens messages
      let cost := calculate_cost provider model estTokens
      let newCredits := s.credits - cost
      let row : UsageEntry :=
        { model := model, provider := provider, tokens_used := estTokens
        , cost := cost, success := true, error_message := none }
      ({ credits := newCredits, billing := s.billing, usage := s.usage ++ [row] },
       .ok { tokens := estTokens, provider := provider, cost := cost
           , remaining_credits := newCredits })
  | .modelNotFound msg =>
      let row : UsageEntry :=
        { model := model, provider := "unknown", tokens_used := 0
        , cost := 0, success := false, error_message := some msg }
      ({ s with usage := s.usage ++ [row] }, .httpError 400)
  | .otherError msg =>
      let row : UsageEntry :=
        { model := model, provider := "unknown", tokens_used := 0
        , cost := 0, success := false, error_message := some msg }
      ({ s with usage := s.usage ++ [row] }, .httpError 500)

/-- A chat request as seen from outside: the CreditCheckMiddleware of
middleware.py rejects it with 402 when the user's credits are <= 0;
otherwise the endpoint runs. -/
def chat_request (s : GatewayState) (model : String) (messages : List String)
    (llm : LLMResult) : GatewayState × ChatResult :=
  if s.credits ≤ 0 then (s, .httpError 402)
  else chat_completion s model messages llm

/-- The purchase_credits endpoint of main_phase2.py (lines 505-541),
after authentication: the amount is added to the balance and appended
to the billing history, with no check on its sign or size. -/
def purchase_credits (s : GatewayState) (amount : ℚ) : GatewayState :=
  { credits := s.credits + amount, billing := s.billing ++ [amount], usage := s.usage }

/-- A gateway operation on one user's account, after registration. -/
inductive Op where
  | purchase (amount : ℚ)
  | chat (model : String) (messages : List String) (llm : LLMResult)

/-- Effect of one operation on the user's state. -/
def apply_op (s : GatewayState) : Op → GatewayState
  | .purchase amount => purchase_credits s amount
  | .chat model messages llm => (chat_request s model messages llm).1

/-- Sequential execution of a list of operations. -/
def run_ops (s : GatewayState) (ops : List Op) : GatewayState :=
  ops.foldl apply_op s

/-- Sum of the costs of the successful usage rows. -/
def success_cost_sum (usage : List UsageEntry) : ℚ :=
  ((usage.filter (fun u => u.success)).map (fun u => u.cost)).sum

/-! ### Rate limiter (src/api_gateway/middleware.py, RateLimitMiddleware) -/

/-- One call of _check_rate_limit against the cached counter for an
API key (none = the key is absent or its 60-second window expired):
an absent counter is set to 1 and the request allowed; a counter at 60
or above rejects and leaves the counter; otherwise the counter is
incremented and the request allowed. -/
def check_rate_limit : Option ℕ → Bool × Option ℕ
  | none => (true, some 1)
  | some c => if 60 ≤ c then (false, some c) else (true, some (c + 1))

/-- Counter value after n requests within one window, starting from an
absent counter. -/
def counter_after : ℕ → Option ℕ
  | 0 => none
  | n + 1 => (check_rate_limit (counter_after n)).2

/-- Whether the k-th request (1-based) within the window is allowed. -/
def request_allowed (k : ℕ) : Bool :=
  (check_rate_limit (counter_after (k - 1))).1

/-- Status the middleware produces for the k-th request: none when the
request is passed through, some 429 when _check_rate_limit rejects it
(RateLimitMiddleware.__call__ lines 50-57). -/
def middleware_status (k : ℕ) : Option ℕ :=
  if request_allowed k then none else some 429

/-! ### Anthropic adapter retry (src/src/unillm/adapters/anthropic_adapter.py) -/

/-- An HTTP response from the provider as seen by the retry loop: the
status code and the error.message string extracted from its JSON body
(empty when there is none). -/
structure HttpResponse where
  statusCode : ℕ
  errorMessage : String
deriving Repr, DecidableEq

/-- Boolean test that the second character list is a prefix of the
first. -/
def charsStartWith : List Char → List Char → Bool
  | _, [] => true
  | [], _ :: _ => false
  | a :: as, b :: bs => a == b && charsStartWith as bs

/-- Boolean test that the second character list occurs contiguously
inside the first. -/
def charsContain : List Char → List Char → Bool
  | [], needle => needle.isEmpty
  | a :: rest, needle => charsStartWith (a :: rest) needle || charsContain rest needle

/-- Python substring containment: needle in hay. -/
def strContains (hay needle : String) : Bool :=
  charsContain hay.data needle.data

/-- The overload keywords of _make_request_with_retry. -/
def overloadKeywords : List String :=
  ["overloaded", "server error", "internal error", "service unavailable"]

/-- The retry condition of _make_request_with_retry: a 5xx status whose
lowercased error message contains one of the overload keywords. -/
def isOverloadError (r : HttpResponse) : Bool :=
  decide (500 ≤ r.statusCode)
    && overloadKeywords.any (fun kw => strContains r.errorMessage.toLower kw)

/-- The attempt loop of _make_request_with_retry.  The function resp
gives the response the i-th attempt (0-based) would receive; fuel is
the number of attempts still available including the current one.  A
200 response returns at once; an overloaded 5xx response retries
unless this was the last attempt; any other response returns at once.
The result carries the returned response and the number of attempts
made. -/
def retry_go (resp : ℕ → HttpResponse) : ℕ → ℕ → HttpResponse × ℕ
  | attempt, 0 => (resp attempt, attempt + 1)
  | attempt, fuel + 1 =>
      let r := resp attempt
      if r.statusCode = 200 then (r, attempt + 1)
      else if isOverloadError r then
        if fuel = 0 then (r, attempt + 1)
        else retry_go resp (attempt + 1) fuel
      else (r, attempt + 1)

/-- _make_request_with_retry: run the attempt loop from attempt 0 with
maxRetries attempts available (the source default is 3). -/
def make_request_with_retry (resp : ℕ → HttpResponse) (maxRetries : ℕ) : HttpResponse × ℕ :=
  retry_go resp 0 maxRetries

/-! ### Model registry (src/src/unillm/registry.py) -/

/-- The three dictionaries of ModelRegistry, as association lists in
insertion order (Python dicts preserve insertion order; the value sets
of _provider_models are kept as duplicate-free lists). -/
structure ModelRegistry where
  modelToProvider : List (String × String)
  providerModels : List (String × List String)
  aliases : List (String × String)
deriving Repr, DecidableEq

/-- Python dict assignment d[k] = v: overwrite in place when the key
exists, append otherwise. -/
def dictSet (l : List (String × String)) (k v : String) : List (String × String) :=
  if l.any (fun p => p.1 == k) then
    l.map (fun p => if p.1 == k then (k, v) else p)
  else l ++ [(k, v)]

/-- Python set.add. -/
def setAdd (s : List String) (x : String) : List String :=
  if s.contains x then s else s ++ [x]

/-- Python set.discard. -/
def setDiscard (s : List String) (x : String) : List String :=
  s.filter (fun y => y != x)

/-- Add model to the set _provider_models[provider], creating the set
when the provider key is new. -/
def pmAdd (pm : List (String × List String)) (provider model : String) :
    List (String × List String) :=
  if pm.any (fun p => p.1 == provider) then
    pm.map (fun p => if p.1 == provider then (p.1, setAdd p.2 model) else p)
  else pm ++ [(provider, [model])]

/-- Discard model from _provider_models[provider] when that key
exists. -/
def pmDiscard (pm : List (String × List String)) (provider model : String) :
    List (String × List String) :=
  pm.map (fun p => if p.1 == provider then (p.1, setDiscard p.2 model) else p)

/-- resolve_alias of registry.py. -/
def resolve_alias (reg : ModelRegistry) (model : String) : String :=
  (List.lookup model reg.aliases).getD model

/-- register_model of registry.py: resolve the alias, move the model
out of its old provider's set when the provider changed, then record
the model under the new provider. -/
def register_model (reg : ModelRegistry) (model provider : String) : ModelRegistry :=
  let model := resolve_alias reg model
  let oldProvider := List.lookup model reg.modelToProvider
  let pm :=
    match oldProvider with
    | some old => if old != provider then pmDiscard reg.providerModels old model
                  else reg.providerModels
    | none => reg.providerModels
  { modelToProvider := dictSet reg.modelToProvider model provider
  , providerModels := pmAdd pm provider model
  , aliases := reg.aliases }

/-- One iteration of the alias loops of _initialize_default_models:
register_model(alias, provider) followed by the dict write
_aliases[alias] = canonical.  Note the registration happens before the
alias table entry exists, so resolve_alias leaves the alias name
itself to be registered. -/
def register_alias (reg : ModelRegistry) (al canonical provider : String) : ModelRegistry :=
  let reg := register_model reg al provider
  { reg with aliases := reg.aliases ++ [(al, canonical)] }

/-- OpenAI model set of _initialize_default_models, in source order. -/
def openai_models : List String :=
  [ "gpt-4", "gpt-4o", "gpt-4o-mini", "gpt-4-turbo", "gpt-4-turbo-preview"
  , "gpt-4-32k", "gpt-4-32k-turbo", "gpt-3.5-turbo", "gpt-3.5-turbo-16k"
  , "gpt-3.5-turbo-instruct" ]

/-- Anthropic model set of _initialize_default_models, in source order. -/
def anthropic_models : List String :=
  [ "claude-3-opus-20240229", "claude-3-haiku-20240307"
  , "claude-3-5-sonnet-20241022", "claude-3-7-sonnet-20250219"
  , "claude-sonnet-4-20250514", "claude-opus-4-20250514"
  , "claude-3-5-haiku-20241022", "claude-3-5-sonnet-20240620" ]

/-- Gemini model set of _initialize_default_models, in source order. -/
def gemini_models : List String :=
  [ "gemini-pro", "gemini-pro-vision", "gemini-1.5-pro", "gemini-1.5-flash"
  , "gemini-1.5-pro-latest", "gemini-1.5-flash-latest" ]

/-- Mistral model set of _initialize_default_models, in source order. -/
def mistral_models : List String :=
  [ "mistral-large", "mistral-medium", "mistral-small", "mistral-7b-instruct" ]

/-- Cohere model set of _initialize_default_models, in source order. -/
def cohere_models : List String :=
  [ "command", "command-light", "command-nightly", "command-light-nightly" ]

/-- Anthropic alias table of _initialize_default_models, in source
order. -/
def anthropic_aliases : List (String × String) :=
  [ ("claude-3-opus", "claude-3-opus-20240229")
  , ("claude-3-haiku", "claude-3-haiku-20240307")
  , ("claude-3-sonnet", "claude-3-5-sonnet-20241022")
  , ("claude-3-sonnet-20240229", "claude-3-5-sonnet-20241022") ]

/-- Gemini alias table of _initialize_default_models, in source
order. -/
def gemini_aliases : List (String × String) :=
  [ ("gemini", "gemini-pro"), ("gemini-1.5", "gemini-1.5-pro") ]

/-- _initialize_default_models of registry.py, run on an empty
registry. -/
def model_registry : ModelRegistry :=
  let reg : ModelRegistry := { modelToProvider := [], providerModels := [], aliases := [] }
  let reg := openai_models.foldl (fun r m => register_model r m "openai") reg
  let reg := anthropic_models.foldl (fun r m => register_model r m "anthropic") reg
  let reg := gemini_models.foldl (fun r m => register_model r m "gemini") reg
  let reg := mistral_models.foldl (fun r m => register_model r m "mistral") reg
  let reg := cohere_models.foldl (fun r m => register_model r m "cohere") reg
  let reg := anthropic_aliases.foldl (fun r p => register_alias r p.1 p.2 "anthropic") reg
  let reg := gemini_aliases.foldl (fun r p => register_alias r p.1 p.2 "gemini") reg
  reg

/-- list_models of registry.py: the keys of _model_to_provider
followed by the keys of _aliases. -/
def list_models (reg : ModelRegistry) : List String :=
  reg.modelToProvider.map (fun p => p.1) ++ reg.aliases.map (fun p => p.1)

/-! ### Helper lemmas -/

/-- Splitting the successful-cost sum over an append. -/
lemma success_cost_sum_append (u v : List UsageEntry) :
    success_cost_sum (u ++ v) = success_cost_sum u + success_cost_sum v := by
  simp [success_cost_sum, List.filter_append]

/-- Every single operation preserves the difference between the credit
balance and the ledger value (billing total minus successful usage
total). -/
lemma apply_op_ledger (s : GatewayState) (op : Op) :
    (apply_op s op).credits - ((apply_op s op).billing.sum - success_cost_sum (apply_op s op).usage)
      = s.credits - (s.billing.sum - success_cost_sum s.usage) := by
  cases op with
  | purchase a =>
      simp [apply_op, purchase_credits]
      ring
  | chat m msgs llm =>
      by_cases hc : s.credits ≤ 0
      · simp [apply_op, chat_request, hc]
      · cases llm with
        | ok p =>
            simp [apply_op, chat_request, hc, chat_completion, success_cost_sum_append,
              success_cost_sum]
            ring
        | modelNotFound e =>
            simp [apply_op, chat_request, hc, chat_completion, success_cost_sum_append,
              success_cost_sum]
        | otherError e =>
            simp [apply_op, chat_request, hc, chat_completion, success_cost_sum_append,
              success_cost_sum]

/-- A response satisfying the overload-retry condition has a 5xx
status, hence is not a 200. -/
lemma overload_not_200 {r : HttpResponse} (h : isOverloadError r = true) :
    ¬ r.statusCode = 200 := by
  intro h200
  unfold isOverloadError at h
  rw [Bool.and_eq_true] at h
  have h5 := of_decide_eq_true h.1
  omega

/-- A 12000-character prompt, used to exhibit an overdraft: it
estimates to 3000 tokens, which cost more than the default starting
balance. -/
def overdraftMessage : String := String.mk (List.replicate 12000 'a')

/-! ### Claim C1 -/

/-- C1 counterexample: with the shipped DEFAULT_CREDITS of 0.10, a
freshly registered user who sends one successful gpt-4 chat request
with a 12000-character prompt ends with a strictly negative credit
balance (0.10 - 3000/1000 * 0.036 = -0.008), so the credit-sufficiency
gate and the chat debit do not enforce credits >= 0. -/
theorem credits_can_go_negative :
    (run_ops (register_user (1/10))
      [Op.chat "gpt-4" [overdraftMessage] (.ok "openai")]).credits < 0 := by
  have hreg : register_user (1/10) = { credits := 1/10, billing := [], usage := [] } := by
    unfold register_user DEFAULT_CREDITS; norm_num
  have htok : estimated_tokens [overdraftMessage] = 3000 := by
    have h1 : overdraftMessage.length = 12000 := by
      show (List.replicate 12000 'a').length = 12000
      exact List.length_replicate 12000 'a'
    unfold estimated_tokens
    rw [List.map_cons, List.map_nil, h1]
    norm_num
  rw [run_ops, hreg]
  simp only [List.foldl, apply_op, chat_request]
  rw [if_neg (by norm_num)]
  simp only [chat_completion, htok]
  unfold calculate_cost
  rw [show tableRate "openai" "gpt-4" = 3/100 from rfl]
  push_cast
  norm_num

/-- C1 (corrected): the CreditCheckMiddleware gate only rejects when
credits <= 0, so every debit happens from a positive balance, but the
balance can still go negative.  From any non-negative balance, a
single operation drives the credits below zero only when it is either
a credit purchase of a negative amount larger than the balance, or a
successful chat whose cost exceeds the (positive) balance. -/
theorem credit_floor_single_step (s : GatewayState) (op : Op) (h0 : 0 ≤ s.credits)
    (hneg : (apply_op s op).credits < 0) :
    (∃ a, op = .purchase a ∧ a < 0 ∧ s.credits + a < 0)
      ∨ (∃ m msgs p, op = .chat m msgs (.ok p) ∧ 0 < s.credits
          ∧ s.credits < calculate_cost p m (estimated_tokens msgs)) := by
  cases op with
  | purchase a =>
      left
      refine ⟨a, rfl, ?_, ?_⟩
      · simp [apply_op, purchase_credits] at hneg
        linarith
      · simp [apply_op, purchase_credits] at hneg
        linarith
  | chat m msgs llm =>
      by_cases hc : s.credits ≤ 0
      · simp [apply_op, chat_request, hc] at hneg
        linarith
      · cases llm with
        | ok p =>
            right
            refine ⟨m, msgs, p, rfl, by linarith, ?_⟩
            simp [apply_op, chat_request, hc, chat_completion] at hneg
            linarith
        | modelNotFound e =>
            simp [apply_op, chat_request, hc, chat_completion] at hneg
            linarith
        | otherError e =>
            simp [apply_op, chat_request, hc, chat_completion] at hneg
            linarith

/-- C1 witness: the corrected statement applied to a concrete state
with balance 0.10 and a purchase of -1. -/
theorem credit_floor_single_step_witness :
    (0 : ℚ) ≤ ({ credits := 1/10, billing := [], usage := [] } : GatewayState).credits
    ∧ (apply_op { credits := 1/10, billing := [], usage := [] } (Op.purchase (-1))).credits < 0
    ∧ ((∃ a, Op.purchase (-1) = Op.purchase a ∧ a < 0
          ∧ ({ credits := 1/10, billing := [], usage := [] } : GatewayState).credits + a < 0)
        ∨ (∃ m msgs p, Op.purchase (-1) = Op.chat m msgs (.ok p)
            ∧ 0 < ({ credits := 1/10, billing := [], usage := [] } : GatewayState).credits
            ∧ ({ credits := 1/10, billing := [], usage := [] } : GatewayState).credits
                < calculate_cost p m (estimated_tokens msgs))) := by
  refine ⟨by norm_num, ?_, ?_⟩
  · simp only [apply_op, purchase_credits]
    norm_num
  · exact credit_floor_single_step _ _ (by norm_num)
      (by simp only [apply_op, purchase_credits]; norm_num)

/-! ### Claim C2 -/

/-- C2 counterexample: for openai/gpt-4 at 1000 estimated tokens the
code charges (1000/1000) * (0.03 * 1.2) = 0.036, not the claimed
(1000/1000) * 0.03, because calculate_cost applies a 20 percent markup
to the table rate. -/
theorem cost_markup_counterexample :
    ¬ (calculate_cost "openai" "gpt-4" 1000 = specClaimCost "openai" "gpt-4" 1000) := by
  unfold calculate_cost specClaimCost
  rw [show tableRate "openai" "gpt-4" = 3/100 from rfl]
  push_cast
  norm_num

/-- C2 (corrected): for every successful chat request, the cost
reported, the cost debited and the cost logged all equal
(estimated_tokens / 1000) * (table rate * 1.2), where the table rate
is the per-provider-per-model entry of PROVIDER_COSTS with a default
of 0.01 per 1K tokens. -/
theorem cost_formula_with_markup (s : GatewayState) (m : String) (msgs : List String)
    (p : String) :
    ((chat_completion s m msgs (.ok p)).2).costReported
        = some (((estimated_tokens msgs : ℚ) / 1000) * (tableRate p m * (12/10)))
      ∧ (chat_completion s m msgs (.ok p)).1.credits
        = s.credits - ((estimated_tokens msgs : ℚ) / 1000) * (tableRate p m * (12/10))
      ∧ ((chat_completion s m msgs (.ok p)).1.usage.map (fun u => u.cost))
        = s.usage.map (fun u => u.cost)
            ++ [((estimated_tokens msgs : ℚ) / 1000) * (tableRate p m * (12/10))] := by
  refine ⟨rfl, rfl, ?_⟩
  simp [chat_completion, calculate_cost]

/-! ### Claim C3 -/

/-- C3 counterexample: immediately after registration with the shipped
DEFAULT_CREDITS of 0.10 the user's credits are 0.10 while both the
billing history and the usage log are empty, so credits do not equal
sum(billing_history.amount) - sum(usage_log.cost where success). -/
theorem ledger_invariant_fails_at_registration :
    ¬ ((register_user (1/10)).credits
        = (register_user (1/10)).billing.sum
            - success_cost_sum (register_user (1/10)).usage) := by
  have hreg : register_user (1/10) = { credits := 1/10, billing := [], usage := [] } := by
    unfold register_user DEFAULT_CREDITS; norm_num
  rw [hreg]
  simp [success_cost_sum]

/-- C3 (corrected): after any sequence of purchases and successful or
failed chat completions executed sequentially, the user's credits
equal the registration grant DEFAULT_CREDITS plus the sum of the
billing_history amounts minus the sum of the usage_log costs over
successful requests. -/
theorem ledger_invariant_with_default_credits (env : ℚ) (ops : List Op) :
    (run_ops (register_user env) ops).credits
      = DEFAULT_CREDITS env
        + ((run_ops (register_user env) ops).billing.sum
            - success_cost_sum (run_ops (register_user env) ops).usage) := by
  have key : ∀ (l : List Op) (s : GatewayState),
      (run_ops s l).credits - ((run_ops s l).billing.sum - success_cost_sum (run_ops s l).usage)
        = s.credits - (s.billing.sum - success_cost_sum s.usage) := by
    intro l
    induction l with
    | nil => intro s; simp [run_ops]
    | cons op rest ih =>
        intro s
        have h1 : run_ops s (op :: rest) = run_ops (apply_op s op) rest := rfl
        rw [h1, ih, apply_op_ledger]
  have h := key ops (register_user env)
  have h0 : (register_user env).credits = DEFAULT_CREDITS env := rfl
  have h1 : (register_user env).billing = [] := rfl
  have h2 : (register_user env).usage = [] := rfl
  rw [h0, h1, h2] at h
  have hz : success_cost_sum [] = 0 := rfl
  rw [hz] at h
  simp only [List.sum_nil, sub_zero] at h
  linarith

/-! ### Claim C4 -/

/-- C4 (confirmed): every call that reaches the chat-completion
endpoint appends exactly one UsageLog row, whether the provider call
succeeds, raises ModelNotFoundError, or raises any other exception. -/
theorem usage_log_exactly_once (s : GatewayState) (model : String)
    (messages : List String) (llm : LLMResult) :
    ((chat_completion s model messages llm).1).usage.length = s.usage.length + 1 := by
  cases llm <;> simp [chat_completion]

/-! ### Claim C5 -/

/-- C5 (confirmed): starting from an absent rate-limit counter,
requests 1 through 60 within the window are allowed through the rate
limiter (the middleware passes them on), and the 61st request is
rejected with HTTP status 429. -/
theorem rate_limit_window :
    ((List.range 60).all (fun i => request_allowed (i + 1)) = true)
      ∧ ((List.range 60).all (fun i => (middleware_status (i + 1)).isNone) = true)
      ∧ request_allowed 61 = false
      ∧ middleware_status 61 = some 429 := by
  decide

/-! ### Claim C6 -/

/-- C6 counterexample: for a chat request whose single message is
empty, the endpoint bills and reports 1 token, while the claimed
formula total_characters / 4 gives 0: the code takes a floor of one
token. -/
theorem token_floor_counterexample :
    ¬ (((chat_completion { credits := 1, billing := [], usage := [] } "gpt-4" [""]
          (.ok "openai")).2).tokensReported = some (specClaimTokens [""])) := by
  simp [chat_completion, ChatResult.tokensReported, estimated_tokens, specClaimTokens]

/-- C6 (corrected): for every chat request the estimated token count
billed and reported equals max(total_characters / 4, 1): the total
character count over all message contents integer-divided by 4, with a
floor of one token. -/
theorem token_estimate_with_floor (s : GatewayState) (m : String) (msgs : List String)
    (p : String) :
    ((chat_completion s m msgs (.ok p)).2).tokensReported
        = some (max (((msgs.map String.length).sum) / 4) 1)
      ∧ ((chat_completion s m msgs (.ok p)).1.usage.map (fun u => u.tokens_used))
        = s.usage.map (fun u => u.tokens_used)
            ++ [max (((msgs.map String.length).sum) / 4) 1] := by
  constructor
  · rfl
  · simp [chat_completion, estimated_tokens]

/-! ### Claim C7 -/

/-- C7 (confirmed): a chat request whose provider call fails (with
ModelNotFoundError or any other exception) is logged as a UsageLog row
with success = false and cost 0, and the user's credit balance is left
unchanged; the billing history is untouched, so no debit occurs and
none is reversed. -/
theorem failed_chat_logged_zero_cost (s : GatewayState) (model : String)
    (messages : List String) (e : String) :
    ((chat_completion s model messages (.modelNotFound e)).1.credits = s.credits
      ∧ (chat_completion s model messages (.modelNotFound e)).1.billing = s.billing
      ∧ (chat_completion s model messages (.modelNotFound e)).1.usage
          = s.usage ++ [{ model := model, provider := "unknown", tokens_used := 0
                        , cost := 0, success := false, error_message := some e }]
      ∧ (chat_completion s model messages (.modelNotFound e)).2 = .httpError 400)
    ∧ ((chat_completion s model messages (.otherError e)).1.credits = s.credits
      ∧ (chat_completion s model messages (.otherError e)).1.billing = s.billing
      ∧ (chat_completion s model messages (.otherError e)).1.usage
          = s.usage ++ [{ model := model, provider := "unknown", tokens_used := 0
                        , cost := 0, success := false, error_message := some e }]
      ∧ (chat_completion s model messages (.otherError e)).2 = .httpError 500) := by
  simp [chat_completion]

/-! ### Claim C8 -/

/-- C8 (confirmed): with the source default of 3 attempts, the
Anthropic retry loop returns the first response unless it is a 5xx
whose error message indicates overload (so a 200 and any other non-200
response are returned after one attempt without retrying); it retries
exactly on overloaded 5xx responses, and makes at most 3 attempts,
returning the third response whatever it is. -/
theorem anthropic_retry_behaviour (resp : ℕ → HttpResponse) :
    (make_request_with_retry resp 3
        = if isOverloadError (resp 0) then
            (if isOverloadError (resp 1) then (resp 2, 3) else (resp 1, 2))
          else (resp 0, 1))
      ∧ (make_request_with_retry resp 3).2 ≤ 3 := by
  have hmain : make_request_with_retry resp 3
      = if isOverloadError (resp 0) then
          (if isOverloadError (resp 1) then (resp 2, 3) else (resp 1, 2))
        else (resp 0, 1) := by
    unfold make_request_with_retry
    by_cases h0 : isOverloadError (resp 0)
    · rw [if_pos h0]
      by_cases h1 : isOverloadError (resp 1)
      · rw [if_pos h1]
        show retry_go resp 0 3 = (resp 2, 3)
        rw [retry_go, if_neg (overload_not_200 h0), if_pos h0]
        simp only [Nat.succ_ne_zero, if_false]
        rw [retry_go, if_neg (overload_not_200 h1), if_pos h1]
        simp only [Nat.succ_ne_zero, if_false]
        rw [retry_go]
        by_cases h2a : (resp 2).statusCode = 200
        · rw [if_pos h2a]
        · rw [if_neg h2a]
          by_cases h2b : isOverloadError (resp 2)
          · rw [if_pos h2b, if_pos rfl]
          · rw [if_neg h2b]
      · rw [if_neg h1]
        show retry_go resp 0 3 = (resp 1, 2)
        rw [retry_go, if_neg (overload_not_200 h0), if_pos h0]
        simp only [Nat.succ_ne_zero, if_false]
        rw [retry_go]
        by_cases h1a : (resp 1).statusCode = 200
        · rw [if_pos h1a]
        · rw [if_neg h1a, if_neg h1]
    · rw [if_neg h0]
      show retry_go resp 0 3 = (resp 0, 1)
      rw [retry_go]
      by_cases h0a : (resp 0).statusCode = 200
      · rw [if_pos h0a]
      · rw [if_neg h0a, if_neg h0]
  refine ⟨hmain, ?_⟩
  rw [hmain]
  by_cases h0 : isOverloadError (resp 0) <;>
    by_cases h1 : isOverloadError (resp 1) <;>
    simp [h0, h1]

/-! ### Claim C9 -/

/-- C9 (confirmed): every alias registered by the default model
registry occurs at least twice in list_models(): once because
register_model enters the alias into the model-to-provider map before
the alias-table write, and once more when list_models appends the
alias keys; the /models listing therefore contains duplicates. -/
theorem aliases_listed_twice :
    ∀ a ∈ model_registry.aliases.map (fun p => p.1),
      2 ≤ (list_models model_registry).count a := by
  decide

/-- C9 witness: the theorem applied to the alias "claude-3-opus". -/
theorem aliases_listed_twice_witness :
    "claude-3-opus" ∈ model_registry.aliases.map (fun p => p.1)
      ∧ 2 ≤ (list_models model_registry).count "claude-3-opus" :=
  ⟨by decide, aliases_listed_twice "claude-3-opus" (by decide)⟩

/-! ### Claim C10 -/

/-- C10 (confirmed): the credit-purchase endpoint adds exactly the
requested amount (of any sign) to the balance and appends a billing
row with that amount; no precondition rejects non-positive amounts,
and a negative purchase strictly decreases the balance. -/
theorem purchase_any_amount (s : GatewayState) (a : ℚ) :
    (purchase_credits s a).credits = s.credits + a
      ∧ (purchase_credits s a).billing = s.billing ++ [a]
      ∧ (a < 0 → (purchase_credits s a).credits < s.credits) := by
  refine ⟨rfl, rfl, ?_⟩
  intro ha
  simp only [purchase_credits]
  linarith

/-- C10 witness: the theorem applied at balance 0 with a purchase of
-5. -/
theorem purchase_any_amount_witness :
    (purchase_credits { credits := 0, billing := [], usage := [] } (-5)).credits
        = ({ credits := 0, billing := [], usage := [] } : GatewayState).credits + (-5)
      ∧ (purchase_credits { credits := 0, billing := [], usage := [] } (-5)).billing
        = ({ credits := 0, billing := [], usage := [] } : GatewayState).billing ++ [(-5)]
      ∧ (purchase_credits { credits := 0, billing := [], usage := [] } (-5)).credits
        < ({ credits := 0, billing := [], usage := [] } : GatewayState).credits :=
  ⟨(purchase_any_amount _ _).1, (purchase_any_amount _ _).2.1,
    (purchase_any_amount _ _).2.2 (by norm_num)⟩

end UniLLM
